import Mathlib

/-!
# brick-wc: the CLI orchestration layer of `src/index.js`

A shallow embedding of the command-line front-end: the selector dispatch
(`operations[args]()`), the lint gate, the gated build, the serve operation with
its change listener, and the local network address resolver.

External engines (ESLint, esbuild, the dev server, chalk, `node:os`, `node:fs`)
are not part of the repository; every call into one of them is a field of the
environment `Env`, returning `Except JsError _` where the call can throw.

JavaScript strings are sequences of UTF-16 code units, so `JsString` is a list of
code units and `length`, `indexOf` and `slice` count code units as the runtime
does.  Console output and engine calls are recorded, in program order, in a trace
of `Event`s.  Six status messages of the source start with the private-use glyph
U+E0CF (an icon of the terminal font); it is written `\uE0CF` in the literals below.
-/

set_option autoImplicit false

namespace BrickWc

/-! ## JavaScript strings -/

/-- A JavaScript string: its UTF-16 code units. -/
abbrev JsString := List Nat

/-- UTF-16 encoding of one Unicode scalar value. -/
def utf16Char (c : Char) : List Nat :=
  if c.toNat < 0x10000 then [c.toNat]
  else [0xD800 + (c.toNat - 0x10000) / 0x400, 0xDC00 + (c.toNat - 0x10000) % 0x400]

/-- The JavaScript string denoted by a source literal. -/
def utf16 (s : String) : JsString := s.toList.flatMap utf16Char

/-- First index at or after offset `k` at which `pat` occurs in the rest `s`, or `-1`. -/
def jsIndexOfAux (pat : JsString) : JsString → Nat → Int
  | [], k => if pat.isPrefixOf [] then (k : Int) else -1
  | c :: cs, k => if pat.isPrefixOf (c :: cs) then (k : Int) else jsIndexOfAux pat cs (k + 1)

/-- `String.prototype.indexOf(pat)`: the first index of `pat` in `s`, or `-1`. -/
def jsIndexOf (s pat : JsString) : Int := jsIndexOfAux pat s 0

/-- `String.prototype.slice(start)` with one argument: a negative `start` counts from the
end (clamped at 0), a non-negative one is clamped at the length. -/
def jsSlice (s : JsString) (start : Int) : JsString :=
  let len : Int := (s.length : Int)
  let first : Int := if start < 0 then max (len + start) 0 else min start len
  s.drop first.toNat

/-- `String.prototype.padStart(targetLength, ' ')` with a single-unit filler. -/
def jsPadStart (s : JsString) (targetLength : Nat) (fill : Nat) : JsString :=
  List.replicate (targetLength - s.length) fill ++ s

/-- `String.prototype.padEnd(targetLength, ' ')` with a single-unit filler. -/
def jsPadEnd (s : JsString) (targetLength : Nat) (fill : Nat) : JsString :=
  s ++ List.replicate (targetLength - s.length) fill

/-! ## Network address resolver (`getLocalNetwork`, index.js 167-181) -/

/-- The `family` field of an interface entry: a string on current Node releases
(`'IPv4'`, `'IPv6'`), a number on those that report `4` or `6`. -/
inductive JsFamily where
  | str (s : JsString)
  | num (n : Int)
  deriving DecidableEq, Repr

/-- One entry of `os.networkInterfaces()`, with the fields the resolver reads. -/
structure NetworkInterfaceInfo where
  address : JsString
  family : JsFamily
  internal : Bool
  deriving DecidableEq, Repr

/-- The table returned by `os.networkInterfaces()`: the interface names in `Object.keys`
order, each with its list of entries. -/
abbrev NetTable := List (JsString × List NetworkInterfaceInfo)

/-- The body of the inner `forEach` callback: the value of `localNetwork` after visiting
`net`. -/
def visitNet (localNetwork : JsString) (net : NetworkInterfaceInfo) : JsString :=
  let familyType : JsFamily :=
    match net.family with
    | .str _ => .str (utf16 "IPv4")
    | .num _ => .num 4
  if net.family = familyType && !net.internal then net.address else localNetwork

/-- The function `getLocalNetwork` on the table `nets = networkInterfaces()`. -/
def getLocalNetwork (nets : NetTable) : JsString :=
  nets.foldl (fun localNetwork netEntry => netEntry.2.foldl visitNet localNetwork) []

/-! ### Vocabulary of the resolver's specification -/

/-- An entry is IPv4: its family is `'IPv4'` or `4`. -/
def isIPv4 (net : NetworkInterfaceInfo) : Bool :=
  net.family = .str (utf16 "IPv4") || net.family = .num 4

/-- An entry is IPv4 and not internal. -/
def isExternalIPv4 (net : NetworkInterfaceInfo) : Bool :=
  isIPv4 net && !net.internal

/-- All entries of the table, in iteration order. -/
def entriesInOrder (nets : NetTable) : List NetworkInterfaceInfo :=
  nets.flatMap (fun netEntry => netEntry.2)


/-! ## Thrown values, outcomes and traces -/

/-- A thrown value: an error object with its `name` and `message`. -/
structure JsError where
  name : JsString
  message : JsString
  deriving DecidableEq, Repr

/-- The rendering of a thrown error in a template literal or a string concatenation
(`Error.prototype.toString`). -/
def JsError.toJsString (e : JsError) : JsString :=
  if e.name = [] then e.message
  else if e.message = [] then e.name
  else e.name ++ utf16 ": " ++ e.message

/-- The value of `new Error(message)`. -/
def newError (message : JsString) : JsError := ⟨utf16 "Error", message⟩

/-- A `TypeError` raised by the runtime itself. -/
def newTypeError (message : JsString) : JsError := ⟨utf16 "TypeError", message⟩

/-- An external plugin object, built by one of the plugin factories. -/
structure Plugin where
  name : JsString
  deriving DecidableEq, Repr

/-- The options object passed to `esbuild.build` (index.js 71-96). -/
structure BuildConfig where
  logLevel : JsString
  entryPoints : List JsString
  assetNames : JsString
  chunkNames : JsString
  outdir : JsString
  bundle : Bool
  minify : Bool
  write : Bool
  metafile : Bool
  allowOverwrite : Bool
  loader : List (JsString × JsString)
  plugins : List Plugin
  deriving DecidableEq, Repr

/-- The options of a style plugin: the path filter, the output style handed to
`sass.compile` by its `transform` callback, and the processors handed to `postcss`. -/
structure StylePluginOptions where
  filter : JsString
  sassStyle : JsString
  postcssPlugins : List JsString
  deriving DecidableEq, Repr

/-- The `config` object passed to `startDevServer` (index.js 112-130). -/
structure DevServerConfig where
  rootDir : JsString
  appIndex : JsString
  port : Nat
  open_ : Bool
  clearTerminalOnReload : Bool
  nodeResolve : Bool
  watch : Bool
  plugins : List Plugin
  deriving DecidableEq, Repr

/-- The argument of `webDevServer.startDevServer` (index.js 111-135). -/
structure StartDevServerArgs where
  config : DevServerConfig
  readCliArgs : Bool
  readFileConfig : Bool
  autoExitProcess : Bool
  logStartMessage : Bool
  deriving DecidableEq, Repr

/-- One observable effect of the program. -/
inductive Event where
  | log (line : JsString)
  | lintFiles (patterns : List JsString)
  | esbuildBuild (config : BuildConfig)
  | startDevServer (args : StartDevServerArgs)
  | addListener (eventName : JsString)
  | removeListener (eventName : JsString)
  | serverStop
  deriving DecidableEq, Repr

/-- How a function call ends: it returns a value, it throws (an `async` function's promise
rejects), or the process is terminated by `process.exit`. -/
inductive Outcome (α : Type) where
  | returned (value : α)
  | threw (error : JsError)
  | exited (code : Nat)
  deriving DecidableEq, Repr

/-- A finished call: the effects it performed, in order, and how it ended. -/
structure Run (α : Type) where
  trace : List Event
  outcome : Outcome α

/-- The effects `before` happened first, then the run `r`. -/
def Run.after {α : Type} (before : List Event) (r : Run α) : Run α :=
  ⟨before ++ r.trace, r.outcome⟩

/-- A call whose return value the caller drops. -/
def Run.discard {α : Type} (r : Run α) : Run Unit :=
  ⟨r.trace, match r.outcome with
    | .returned _ => .returned ()
    | .threw e => .threw e
    | .exited c => .exited c⟩

/-- The configurations of the `esbuild.build` calls of a trace, in order. -/
def bundlerCalls (t : List Event) : List BuildConfig :=
  t.filterMap (fun ev => match ev with
    | .esbuildBuild config => some config
    | _ => none)

/-! ## External collaborators -/

/-- One per-file record of the lint engine. -/
structure LintResult where
  filePath : JsString
  errorCount : Nat
  warningCount : Nat
  messages : List JsString
  deriving DecidableEq, Repr

/-- The object returned by `eslint.loadFormatter`. -/
structure Formatter where
  format : List LintResult → Except JsError JsString

/-- An instance of `FlatESLint`. -/
structure ESLint where
  lintFiles : List JsString → Except JsError (List LintResult)
  loadFormatter : JsString → Except JsError Formatter

/-- The handle returned by `startDevServer`: the resolved host name and port of its
`config`, and the results of the calls made on it. -/
structure DevServer where
  hostname : JsString
  port : Nat
  addListener : JsString → Except JsError Unit
  removeListener : JsString → Except JsError Unit
  stop : Except JsError Unit

/-- The object returned by `JSON.parse` on the package metadata: its `version` property,
when present. -/
structure PackageJSON where
  version : Option JsString

/-- Everything the program reads from outside itself: the chalk styles declared at
index.js 20-24 (and the derived ones it uses), the process, and the engines. -/
structure Env where
  colorPrimary : JsString → JsString
  colorPrimaryBold : JsString → JsString
  colorSecondary : JsString → JsString
  colorSecondaryUnderline : JsString → JsString
  colorTertiary : JsString → JsString
  colorTertiaryBold : JsString → JsString
  colorError : JsString → JsString
  colorSuccess : JsString → JsString
  blueBright : JsString → JsString
  cwd : JsString
  networkInterfaces : Except JsError NetTable
  readFileSync : JsString → Except JsError JsString
  jsonParse : JsString → Except JsError PackageJSON
  newFlatESLint : JsString → Except JsError ESLint
  htmlPlugin : Except JsError Plugin
  litCssPlugin : StylePluginOptions → Except JsError Plugin
  esbuildBuild : BuildConfig → Except JsError Unit
  wdsLitCss : StylePluginOptions → Except JsError Plugin
  startDevServer : StartDevServerArgs → Except JsError DevServer

/-! ## Version (index.js 40-43) -/

/-- The function `version`: parse `package.json` and print its `version`. -/
def version (env : Env) : Run Unit :=
  match env.readFileSync (utf16 "package.json") with
  | .error e => ⟨[], .threw e⟩
  | .ok text =>
    match env.jsonParse text with
    | .error e => ⟨[], .threw e⟩
    | .ok packageJSON =>
      ⟨[.log (env.blueBright (packageJSON.version.getD (utf16 "undefined")))], .returned ()⟩

/-! ## Lint gate (index.js 187-209) -/

/-- The `catch` block of `lint`: print the error, then `process.exit(1)`. -/
def lintCatch (env : Env) (error : JsError) : Run Bool :=
  ⟨[.log (env.colorError (utf16 "Error linting the component" ++ utf16 " " ++ error.toJsString))],
    .exited 1⟩

/-- The function `lint`. The engine is constructed outside the `try` block, so a throwing
constructor rejects the promise; an error inside the block ends the process. -/
def lint (env : Env) : Run Bool :=
  let banner : List Event := [.log (env.colorTertiary (utf16 "\uE0CF  Checking code linting..."))]
  match env.newFlatESLint (utf16 "eslint.config.js") with
  | .error e => ⟨banner, .threw e⟩
  | .ok eslint =>
    let called : List Event := banner ++ [.lintFiles [utf16 "./**/*.js"]]
    match eslint.lintFiles [utf16 "./**/*.js"] with
    | .error e => (lintCatch env e).after called
    | .ok results =>
      match eslint.loadFormatter (utf16 "stylish") with
      | .error e => (lintCatch env e).after called
      | .ok formatter =>
        match formatter.format results with
        | .error e => (lintCatch env e).after called
        | .ok resultText =>
          let isValid : Bool := !results.any (fun result => result.errorCount != 0)
          ⟨called ++ [.log resultText] ++
              (if isValid then [.log (env.colorTertiary (utf16 "   Code looks good!"))] else []),
            .returned isValid⟩

/-! ## Build (index.js 67-101) -/

/-- The options of `litCssPlugin` in `build`: compressed output, then prefixing and
minification. -/
def buildStyleOptions : StylePluginOptions :=
  { filter := utf16 ".scss$"
    sassStyle := utf16 "compressed"
    postcssPlugins := [utf16 "autoprefixer", utf16 "cssnanoPlugin"] }

/-- The object literal passed to `esbuild.build`, given its two plugins. -/
def buildOptions (plugins : List Plugin) : BuildConfig :=
  { logLevel := utf16 "warning"
    entryPoints := [utf16 "index.html"]
    assetNames := utf16 "assets/[name]"
    chunkNames := utf16 "[ext]/[name]"
    outdir := utf16 "build"
    bundle := true
    minify := true
    write := true
    metafile := true
    allowOverwrite := true
    loader := [(utf16 ".scss", utf16 "css")]
    plugins := plugins }

/-- The function `build`: every error raised while assembling the options or by the
bundler is printed and swallowed. -/
def build (env : Env) : Run Unit :=
  let banner : List Event :=
    [.log (env.colorPrimary (utf16 "\uE0CF  Starting build and bundling process...")), .log (utf16 "")]
  match env.htmlPlugin with
  | .error e => ⟨banner ++ [.log (env.colorError e.toJsString)], .returned ()⟩
  | .ok html =>
    match env.litCssPlugin buildStyleOptions with
    | .error e => ⟨banner ++ [.log (env.colorError e.toJsString)], .returned ()⟩
    | .ok litCss =>
      let config : BuildConfig := buildOptions [html, litCss]
      match env.esbuildBuild config with
      | .error e =>
        ⟨banner ++ [.esbuildBuild config, .log (env.colorError e.toJsString)], .returned ()⟩
      | .ok _ =>
        ⟨banner ++ [.esbuildBuild config,
            .log (env.colorSuccess (utf16 "\uE0CF  Build process complete!"))], .returned ()⟩

/-! ## Build with the lint gate (index.js 48-62) -/

/-- The `catch` block of `initBuild`: print the error and return. -/
def initBuildCatch (env : Env) (error : JsError) : List Event :=
  [.log (env.colorError (utf16 "\uE0CF  " ++ error.toJsString))]

/-- The function `initBuild`. The call `build()` is its last action and is not awaited;
the effects of `build` follow those of `initBuild` and its promise always fulfils. -/
def initBuild (env : Env) : Run Unit :=
  let banner : List Event :=
    [.log (env.colorPrimaryBold (utf16 "\uE0CF  Setting up build and bundling process...")),
     .log (utf16 "")]
  let linted : Run Bool := lint env
  match linted.outcome with
  | .exited code => ⟨banner ++ linted.trace, .exited code⟩
  | .threw error => ⟨banner ++ linted.trace ++ initBuildCatch env error, .returned ()⟩
  | .returned isLintingValid =>
    if !isLintingValid then
      ⟨banner ++ linted.trace ++
          initBuildCatch env (newError (utf16 "Linting has found errors, fix it before continue.")),
        .returned ()⟩
    else
      ⟨banner ++ linted.trace ++ [.log (utf16 "")] ++ (build env).trace, .returned ()⟩

/-! ## Serve (index.js 106-161) -/

/-- The options of `wdsLitCss` in `serve`: expanded output, prefixing only. -/
def serveStyleOptions : StylePluginOptions :=
  { filter := utf16 "/**/*.scss"
    sassStyle := utf16 "expanded"
    postcssPlugins := [utf16 "autoprefixer"] }

/-- The object literal passed to `startDevServer`. -/
def serveOptions (env : Env) (plugin : Plugin) : StartDevServerArgs :=
  { config :=
      { rootDir := env.cwd
        appIndex := utf16 "index.html"
        port := 8000
        open_ := true
        clearTerminalOnReload := false
        nodeResolve := true
        watch := true
        plugins := [plugin] }
    readCliArgs := false
    readFileConfig := false
    autoExitProcess := true
    logStartMessage := false }

/-- The constant `hostPrefix`. -/
def hostPrefix : JsString := utf16 "http:/"

/-- The template literal of a served URL. -/
def servedUrl (host : JsString) (port : Nat) : JsString :=
  hostPrefix ++ utf16 "/" ++ host ++ utf16 ":" ++ utf16 (toString port) ++ utf16 "/"

/-- The local `changedFile` of the change listener: `pathChange` sliced from the index
`currentFolder.length - pathChange.length`. -/
def changedFile (cwd pathChange : JsString) : JsString :=
  let currentFolder : JsString := cwd ++ utf16 "/"
  jsSlice pathChange ((currentFolder.length : Int) - (pathChange.length : Int))

/-- The listener registered on the file watcher (index.js 149-155): what it prints when
the watcher reports `pathChange`. -/
def changeListener (env : Env) (pathChange : JsString) : List Event :=
  if jsIndexOf pathChange env.cwd > -1 then
    [.log (env.colorTertiaryBold (utf16 "    " ++ changedFile env.cwd pathChange) ++ utf16 " " ++
      env.colorTertiary (utf16 "has changed..."))]
  else []

/-- The `catch` block of `serve`: print the error, then remove the listener and stop the
server. Reading `fileWatcher` from an unassigned `server` is a `TypeError`. -/
def serveCatch (env : Env) (server : Option DevServer) (error : JsError) : Run Unit :=
  let printed : List Event := [.log (env.colorError error.toJsString)]
  match server with
  | none =>
    ⟨printed,
      .threw (newTypeError (utf16 "Cannot read properties of undefined (reading 'fileWatcher')"))⟩
  | some s =>
    match s.removeListener (utf16 "change") with
    | .error e => ⟨printed ++ [.removeListener (utf16 "change")], .threw e⟩
    | .ok _ =>
      match s.stop with
      | .error e => ⟨printed ++ [.removeListener (utf16 "change"), .serverStop], .threw e⟩
      | .ok _ => ⟨printed ++ [.removeListener (utf16 "change"), .serverStop], .returned ()⟩

/-- The lines printed once the server runs, up to and including the local URL. -/
def servedBanner (env : Env) (server : DevServer) : List Event :=
  [.log (utf16 ""),
   .log (env.colorPrimaryBold (utf16 "\uE0CF  Brick component served!")),
   .log (utf16 ""),
   .log (env.colorSecondary (jsPadEnd (jsPadStart (utf16 "Local:") 10 32) 12 32) ++ utf16 " " ++
     env.colorSecondaryUnderline (servedUrl server.hostname server.port))]

/-- The network URL line and the lines after it. -/
def networkBanner (env : Env) (server : DevServer) (nets : NetTable) : List Event :=
  [.log (env.colorSecondary (jsPadStart (utf16 "Network:") 12 32) ++ utf16 " " ++
     env.colorSecondaryUnderline (servedUrl (getLocalNetwork nets) server.port)),
   .log (utf16 ""),
   .log (env.colorTertiary (utf16 "   Watching for changes... 👁️ 👄👁️"))]

/-- The function `serve`. -/
def serve (env : Env) : Run Unit :=
  match env.wdsLitCss serveStyleOptions with
  | .error e => serveCatch env none e
  | .ok plugin =>
    let started : List Event := [.startDevServer (serveOptions env plugin)]
    match env.startDevServer (serveOptions env plugin) with
    | .error e => (serveCatch env none e).after started
    | .ok server =>
      match env.networkInterfaces with
      | .error e =>
        (serveCatch env (some server) e).after (started ++ servedBanner env server)
      | .ok nets =>
        let printed : List Event :=
          started ++ servedBanner env server ++ networkBanner env server nets ++
            [.addListener (utf16 "change")]
        match server.addListener (utf16 "change") with
        | .error e => (serveCatch env (some server) e).after printed
        | .ok _ => ⟨printed, .returned ()⟩

/-! ## Dispatch (index.js 26-35) -/

/-- The four functions stored in `operations`. -/
inductive Operation where
  | serve
  | initBuild
  | lint
  | version
  deriving DecidableEq, Repr

/-- The value of a property read on `operations`. -/
inductive JsValue where
  | undefined
  | operation (op : Operation)
  | builtin (name : JsString)
  | object
  deriving DecidableEq, Repr

/-- The own properties of the object literal `operations`. -/
def operationsOwn (key : JsString) : Option Operation :=
  if key = utf16 "--serve" then some .serve
  else if key = utf16 "--build" then some .initBuild
  else if key = utf16 "--lint" then some .lint
  else if key = utf16 "--version" then some .version
  else if key = utf16 "-v" then some .version
  else none

/-- The methods of `Object.prototype`, which every object literal inherits. -/
def objectPrototypeMethods : List JsString :=
  [utf16 "constructor", utf16 "__defineGetter__", utf16 "__defineSetter__",
   utf16 "hasOwnProperty", utf16 "__lookupGetter__", utf16 "__lookupSetter__",
   utf16 "isPrototypeOf", utf16 "propertyIsEnumerable", utf16 "toString", utf16 "valueOf",
   utf16 "toLocaleString"]

/-- A property read on `Object.prototype`: one of its methods, the accessor `__proto__`
(whose value is an object), or nothing. -/
def objectPrototypeGet (key : JsString) : JsValue :=
  if key ∈ objectPrototypeMethods then .builtin key
  else if key = utf16 "__proto__" then .object
  else .undefined

/-- The property read `operations[key]`: own properties first, then the prototype. -/
def operationsGet (key : JsString) : JsValue :=
  match operationsOwn key with
  | some op => .operation op
  | none => objectPrototypeGet key

/-- The property key of `operations[args]`, where `args = process.argv[2]` is absent when
no argument was given. -/
def toPropertyKey (args : Option JsString) : JsString :=
  args.getD (utf16 "undefined")

/-- A method of `Object.prototype` called on `operations` without arguments: the two
accessor-defining methods reject a missing function, the others return. -/
def callObjectPrototypeMethod (name : JsString) : Outcome Unit :=
  if name = utf16 "__defineGetter__" then
    .threw (newTypeError (utf16 "Object.prototype.__defineGetter__: Expecting function"))
  else if name = utf16 "__defineSetter__" then
    .threw (newTypeError (utf16 "Object.prototype.__defineSetter__: Expecting function"))
  else .returned ()

/-- One call of a function stored in `operations`. -/
def runOperation (env : Env) : Operation → Run Unit
  | .serve => serve env
  | .initBuild => initBuild env
  | .lint => (lint env).discard
  | .version => version env

/-- The statement `operations[args]()`. -/
def dispatch (env : Env) (args : Option JsString) : Run Unit :=
  match operationsGet (toPropertyKey args) with
  | .operation op => runOperation env op
  | .builtin name => ⟨[], callObjectPrototypeMethod name⟩
  | .object => ⟨[], .threw (newTypeError (utf16 "operations[args] is not a function"))⟩
  | .undefined => ⟨[], .threw (newTypeError (utf16 "operations[args] is not a function"))⟩

/-! ## Sample inputs -/

/-- A non-internal IPv4 entry with the given address. -/
def externalEntry (address : String) : NetworkInterfaceInfo :=
  ⟨utf16 address, .str (utf16 "IPv4"), false⟩

/-- The loopback entry `127.0.0.1`. -/
def loopbackEntry : NetworkInterfaceInfo :=
  ⟨utf16 "127.0.0.1", .str (utf16 "IPv4"), true⟩

/-- A host with a wired and a wireless interface, each with one external IPv4 address. -/
def twoAddressTable : NetTable :=
  [(utf16 "eth0", [externalEntry "192.168.1.5"]), (utf16 "wlan0", [externalEntry "10.0.0.7"])]

/-- A host with one external IPv4 address and the loopback interface. -/
def oneAddressTable : NetTable :=
  [(utf16 "eth0", [externalEntry "192.168.1.5"]), (utf16 "lo", [loopbackEntry])]

/-- A host with the loopback interface and an external IPv6 address only. -/
def noAddressTable : NetTable :=
  [(utf16 "lo", [loopbackEntry]), (utf16 "eth0", [⟨utf16 "fe80::1", .str (utf16 "IPv6"), false⟩])]

/-- A lint engine that reports `results` and renders them as `report`. -/
def stubESLint (results : List LintResult) (report : JsString) : ESLint :=
  { lintFiles := fun _ => .ok results
    loadFormatter := fun _ => .ok ⟨fun _ => .ok report⟩ }

/-- A dev-server handle on which every call succeeds. -/
def stubServer : DevServer :=
  { hostname := utf16 "localhost"
    port := 8000
    addListener := fun _ => .ok ()
    removeListener := fun _ => .ok ()
    stop := .ok () }

/-- An environment without colours in which every engine succeeds and the lint engine
reports `results`. -/
def stubEnv (results : List LintResult) : Env :=
  { colorPrimary := id
    colorPrimaryBold := id
    colorSecondary := id
    colorSecondaryUnderline := id
    colorTertiary := id
    colorTertiaryBold := id
    colorError := id
    colorSuccess := id
    blueBright := id
    cwd := utf16 "/home/dev/brick"
    networkInterfaces := .ok oneAddressTable
    readFileSync := fun _ => .ok (utf16 "")
    jsonParse := fun _ => .ok ⟨some (utf16 "1.0.0")⟩
    newFlatESLint := fun _ => .ok (stubESLint results (utf16 ""))
    htmlPlugin := .ok ⟨utf16 "html"⟩
    litCssPlugin := fun _ => .ok ⟨utf16 "lit-css"⟩
    esbuildBuild := fun _ => .ok ()
    wdsLitCss := fun _ => .ok ⟨utf16 "wds-lit-css"⟩
    startDevServer := fun _ => .ok stubServer }

/-- A file with two warnings and no error. -/
def warningsOnly : LintResult := ⟨utf16 "src/index.js", 0, 2, []⟩

/-- A file with one error. -/
def oneError : LintResult := ⟨utf16 "src/eslint.config.js", 1, 0, []⟩

/-- The environment `stubEnv []` with a dev server whose start throws. -/
def failedStartEnv : Env :=
  { stubEnv [] with
    startDevServer := fun _ => .error (newError (utf16 "listen EADDRINUSE: address already in use")) }

/-! ### Vocabulary of the dispatcher's specification -/

/-- The five recognized selectors. -/
def recognizedSelectors : List JsString :=
  [utf16 "--serve", utf16 "--build", utf16 "--lint", utf16 "--version", utf16 "-v"]

/-! ## Resolver lemmas -/

theorem visitNet_eq (localNetwork : JsString) (net : NetworkInterfaceInfo) :
    visitNet localNetwork net = if isExternalIPv4 net then net.address else localNetwork := by
  unfold visitNet isExternalIPv4 isIPv4
  cases hf : net.family with
  | str s =>
    by_cases h : s = utf16 "IPv4" <;> simp [h]
  | num n =>
    by_cases h : n = 4 <;> simp [h]

theorem getLocalNetwork_eq_foldl (nets : NetTable) :
    getLocalNetwork nets = (entriesInOrder nets).foldl visitNet [] := by
  unfold getLocalNetwork entriesInOrder
  generalize ([] : JsString) = acc
  induction nets generalizing acc with
  | nil => rfl
  | cons hd tl ih => simp [List.foldl_append, ih]

theorem foldl_visitNet_filter (l : List NetworkInterfaceInfo) (acc : JsString) :
    l.foldl visitNet acc = (l.filter isExternalIPv4).foldl (fun _ net => net.address) acc := by
  induction l generalizing acc with
  | nil => rfl
  | cons hd tl ih =>
    by_cases hhd : isExternalIPv4 hd = true
    · simp [List.filter_cons, visitNet_eq, hhd, ih]
    · simp [List.filter_cons, visitNet_eq, hhd, ih]

theorem filter_eq_nil_of_none (l : List NetworkInterfaceInfo)
    (h : ∀ x ∈ l, isExternalIPv4 x = false) : l.filter isExternalIPv4 = [] := by
  rw [List.filter_eq_nil_iff]
  intro x hx
  simp [h x hx]

/-! ## Resolver theorems -/

/-- C1 (counterexample): on a table with two external IPv4 entries the first such entry in
iteration order is `192.168.1.5`, yet `getLocalNetwork` returns `10.0.0.7`. -/
theorem getLocalNetwork_not_first :
    (entriesInOrder twoAddressTable).find? isExternalIPv4 = some (externalEntry "192.168.1.5") ∧
    getLocalNetwork twoAddressTable = utf16 "10.0.0.7" ∧
    getLocalNetwork twoAddressTable ≠ (externalEntry "192.168.1.5").address := by
  decide

/-- C1 (amended): for every interface table, `getLocalNetwork` returns the address of the last
entry, in iteration order, that is IPv4 (family `'IPv4'` or `4`) and not internal. -/
theorem getLocalNetwork_last (nets : NetTable) (before after : List NetworkInterfaceInfo)
    (e : NetworkInterfaceInfo) (hsplit : entriesInOrder nets = before ++ e :: after)
    (he : isExternalIPv4 e = true) (hafter : ∀ x ∈ after, isExternalIPv4 x = false) :
    getLocalNetwork nets = e.address := by
  rw [getLocalNetwork_eq_foldl, hsplit, foldl_visitNet_filter, List.filter_append,
    List.filter_cons, if_pos he, filter_eq_nil_of_none after hafter, List.foldl_append]
  rfl

theorem getLocalNetwork_last_witness :
    entriesInOrder twoAddressTable
        = [externalEntry "192.168.1.5"] ++ externalEntry "10.0.0.7" :: [] ∧
      getLocalNetwork twoAddressTable = (externalEntry "10.0.0.7").address :=
  ⟨by decide,
    getLocalNetwork_last twoAddressTable [externalEntry "192.168.1.5"] []
      (externalEntry "10.0.0.7") (by decide) (by decide) (by decide)⟩

/-- C7: for every interface table in which no entry is both IPv4 and non-internal,
`getLocalNetwork` returns the empty string. -/
theorem getLocalNetwork_none (nets : NetTable)
    (h : ∀ e ∈ entriesInOrder nets, isExternalIPv4 e = false) :
    getLocalNetwork nets = utf16 "" := by
  rw [getLocalNetwork_eq_foldl, foldl_visitNet_filter, filter_eq_nil_of_none _ h]
  rfl

theorem getLocalNetwork_none_witness :
    (∀ e ∈ entriesInOrder noAddressTable, isExternalIPv4 e = false) ∧
      getLocalNetwork noAddressTable = utf16 "" ∧ getLocalNetwork [] = utf16 "" :=
  ⟨by decide, getLocalNetwork_none noAddressTable (by decide),
    getLocalNetwork_none [] (by decide)⟩

/-- C8: for every interface table with exactly one entry that is IPv4 and non-internal,
whatever other entries surround it, `getLocalNetwork` returns that entry's address. -/
theorem getLocalNetwork_unique (nets : NetTable) (e : NetworkInterfaceInfo)
    (h : (entriesInOrder nets).filter isExternalIPv4 = [e]) :
    getLocalNetwork nets = e.address := by
  rw [getLocalNetwork_eq_foldl, foldl_visitNet_filter, h]
  rfl

theorem getLocalNetwork_unique_witness :
    (entriesInOrder oneAddressTable).filter isExternalIPv4 = [externalEntry "192.168.1.5"] ∧
      getLocalNetwork oneAddressTable = utf16 "192.168.1.5" :=
  ⟨by decide, getLocalNetwork_unique oneAddressTable (externalEntry "192.168.1.5") (by decide)⟩

/-! ## Lint gate -/

theorem lint_bundlerCalls (env : Env) : bundlerCalls (lint env).trace = [] := by
  unfold lint
  repeat' split
  all_goals simp [bundlerCalls, Run.after, lintCatch]

theorem not_any_errorCount (results : List LintResult) :
    (!results.any (fun result => result.errorCount != 0))
      = (results.map LintResult.errorCount).all (fun count => count == 0) := by
  induction results with
  | nil => rfl
  | cons hd tl ih =>
    simp only [List.any_cons, List.map_cons, List.all_cons, Bool.not_or, ih]
    cases h : hd.errorCount == 0 <;> simp [bne, h]

/-- C2: when the lint engine returns a result sequence (and renders its report), `lint`
returns true if and only if no result has a nonzero `errorCount`; the returned value is a
function of the error counts alone, so warning counts never change it, and an empty result
sequence yields true. -/
theorem lint_valid_iff (env : Env) (eslint : ESLint) (formatter : Formatter)
    (results : List LintResult) (resultText : JsString)
    (hnew : env.newFlatESLint (utf16 "eslint.config.js") = .ok eslint)
    (hfiles : eslint.lintFiles [utf16 "./**/*.js"] = .ok results)
    (hload : eslint.loadFormatter (utf16 "stylish") = .ok formatter)
    (htext : formatter.format results = .ok resultText) :
    ((lint env).outcome = .returned true ↔ ∀ r ∈ results, r.errorCount = 0) ∧
    ((lint env).outcome = .returned false ↔ ∃ r ∈ results, r.errorCount ≠ 0) ∧
    (lint env).outcome
      = .returned ((results.map LintResult.errorCount).all (fun count => count == 0)) ∧
    (results = [] → (lint env).outcome = .returned true) := by
  have hout : (lint env).outcome
      = .returned (!results.any (fun result => result.errorCount != 0)) := by
    simp [lint, hnew, hfiles, hload, htext]
  refine ⟨?_, ?_, ?_, ?_⟩
  · rw [hout]; simp
  · rw [hout]; simp
  · rw [hout, not_any_errorCount]
  · rintro rfl; rw [hout]; rfl

theorem lint_valid_iff_witness :
    ((lint (stubEnv [warningsOnly])).outcome = .returned true ↔
        ∀ r ∈ [warningsOnly], r.errorCount = 0) ∧
    ((lint (stubEnv [warningsOnly])).outcome = .returned false ↔
        ∃ r ∈ [warningsOnly], r.errorCount ≠ 0) ∧
    (lint (stubEnv [warningsOnly])).outcome
      = .returned (([warningsOnly].map LintResult.errorCount).all (fun count => count == 0)) ∧
    ([warningsOnly] = [] → (lint (stubEnv [warningsOnly])).outcome = .returned true) :=
  lint_valid_iff (stubEnv [warningsOnly]) (stubESLint [warningsOnly] (utf16 ""))
    ⟨fun _ => .ok (utf16 "")⟩ [warningsOnly] (utf16 "") rfl rfl rfl rfl

/-! ## Build with the lint gate -/

theorem bundlerCalls_append (s t : List Event) :
    bundlerCalls (s ++ t) = bundlerCalls s ++ bundlerCalls t := by
  simp [bundlerCalls, List.filterMap_append]

theorem getLast_append_singleton (l : List Event) (a : Event) :
    (l ++ [a]).getLast? = some a := by
  simp

theorem utf16_glyph : utf16 "\uE0CF  " = [0xE0CF, 0x20, 0x20] := by
  decide

theorem lintFailure_text :
    utf16 "\uE0CF  " ++ (newError (utf16 "Linting has found errors, fix it before continue.")).toJsString
      = utf16 "\uE0CF  Error: " ++ utf16 "Linting has found errors" ++ utf16 ", fix it before continue." := by
  decide

/-- C3: whenever the lint gate returns false, `initBuild` makes no `esbuild.build` call, its
last effect is to print, in the error style, the text made of the glyph U+E0CF and
`  Error: Linting has found errors, fix it before continue.` (so the printed line contains
"Linting has found errors" as soon as the style keeps this one text inside its result), and
it returns normally: it neither throws nor exits the process. -/
theorem initBuild_lint_false (env : Env) (hlint : (lint env).outcome = .returned false) :
    bundlerCalls (initBuild env).trace = [] ∧
    (∃ text : JsString,
      (initBuild env).trace.getLast? = some (Event.log (env.colorError text)) ∧
      text = utf16 "\uE0CF  Error: Linting has found errors, fix it before continue." ∧
      utf16 "Linting has found errors" <:+: text) ∧
    (utf16 "\uE0CF  Error: Linting has found errors, fix it before continue."
        <:+: env.colorError
          (utf16 "\uE0CF  Error: Linting has found errors, fix it before continue.") →
      ∃ line : JsString, Event.log line ∈ (initBuild env).trace ∧
        utf16 "Linting has found errors" <:+: line) ∧
    (initBuild env).outcome = .returned () := by
  have htext : utf16 "Linting has found errors"
      <:+: utf16 "\uE0CF  " ++
        (newError (utf16 "Linting has found errors, fix it before continue.")).toJsString :=
    ⟨utf16 "\uE0CF  Error: ", utf16 ", fix it before continue.", lintFailure_text.symm⟩
  have hsame : utf16 "\uE0CF  " ++
      (newError (utf16 "Linting has found errors, fix it before continue.")).toJsString
        = utf16 "\uE0CF  Error: Linting has found errors, fix it before continue." := by decide
  have htrace : (initBuild env).trace
      = [Event.log (env.colorPrimaryBold (utf16 "\uE0CF  Setting up build and bundling process...")),
          Event.log (utf16 "")] ++ (lint env).trace ++
        [Event.log (env.colorError (utf16 "\uE0CF  " ++
          (newError (utf16 "Linting has found errors, fix it before continue.")).toJsString))] := by
    simp [initBuild, hlint, initBuildCatch]
  have hout : (initBuild env).outcome = .returned () := by
    simp [initBuild, hlint]
  refine ⟨?_, ⟨_, ?_, hsame, ?_⟩, ?_, hout⟩
  · rw [htrace, bundlerCalls_append, bundlerCalls_append, lint_bundlerCalls]
    simp [bundlerCalls]
  · rw [htrace, getLast_append_singleton]
  · exact htext
  · intro hstyle
    refine ⟨env.colorError
      (utf16 "\uE0CF  Error: Linting has found errors, fix it before continue."), ?_,
      List.IsInfix.trans (hsame ▸ htext) hstyle⟩
    rw [htrace, hsame]
    simp

theorem initBuild_lint_false_witness :
    (lint (stubEnv [oneError])).outcome = .returned false ∧
    bundlerCalls (initBuild (stubEnv [oneError])).trace = [] ∧
    (∃ line : JsString, Event.log line ∈ (initBuild (stubEnv [oneError])).trace ∧
      utf16 "Linting has found errors" <:+: line) ∧
    (initBuild (stubEnv [oneError])).outcome = .returned () :=
  ⟨rfl, (initBuild_lint_false (stubEnv [oneError]) rfl).1,
    (initBuild_lint_false (stubEnv [oneError]) rfl).2.2.1 (List.infix_refl _),
    (initBuild_lint_false (stubEnv [oneError]) rfl).2.2.2⟩

theorem build_outcome (env : Env) : (build env).outcome = .returned () := by
  unfold build
  dsimp only
  repeat' split
  all_goals rfl

/-- C4: whenever the lint gate returns true and the bundler call succeeds, the build
operation (`initBuild` followed by `build`) calls `esbuild.build` exactly once, with a
configuration whose `bundle` and `minify` are both true, and its last effect is to print,
in the success style, the text made of the glyph U+E0CF and `  Build process complete!`
(so the printed line contains "Build process complete!" as soon as the style keeps this
one text inside its result); it returns normally. -/
theorem initBuild_lint_true (env : Env) (html litCss : Plugin)
    (hlint : (lint env).outcome = .returned true)
    (hhtml : env.htmlPlugin = .ok html)
    (hlitCss : env.litCssPlugin buildStyleOptions = .ok litCss)
    (hbuild : env.esbuildBuild (buildOptions [html, litCss]) = .ok ()) :
    (∃ config : BuildConfig,
      bundlerCalls (initBuild env).trace = [config] ∧
      config.bundle = true ∧ config.minify = true) ∧
    (initBuild env).trace.getLast?
      = some (Event.log (env.colorSuccess (utf16 "\uE0CF  Build process complete!"))) ∧
    utf16 "Build process complete!" <:+: utf16 "\uE0CF  Build process complete!" ∧
    (utf16 "\uE0CF  Build process complete!"
        <:+: env.colorSuccess (utf16 "\uE0CF  Build process complete!") →
      ∃ line : JsString, Event.log line ∈ (initBuild env).trace ∧
        utf16 "Build process complete!" <:+: line) ∧
    (initBuild env).outcome = .returned () := by
  have hphrase : utf16 "Build process complete!" <:+: utf16 "\uE0CF  Build process complete!" :=
    ⟨utf16 "\uE0CF  ", [], by decide⟩
  have hb : (build env).trace
      = [Event.log (env.colorPrimary (utf16 "\uE0CF  Starting build and bundling process...")),
          Event.log (utf16 "")] ++
        [Event.esbuildBuild (buildOptions [html, litCss]),
          Event.log (env.colorSuccess (utf16 "\uE0CF  Build process complete!"))] := by
    simp [build, hhtml, hlitCss, hbuild]
  have htrace : (initBuild env).trace
      = [Event.log (env.colorPrimaryBold (utf16 "\uE0CF  Setting up build and bundling process...")),
          Event.log (utf16 "")] ++ (lint env).trace ++ [Event.log (utf16 "")] ++
        (build env).trace := by
    simp [initBuild, hlint]
  refine ⟨⟨buildOptions [html, litCss], ?_, rfl, rfl⟩, ?_, hphrase, ?_, ?_⟩
  · rw [htrace, hb]
    simp only [bundlerCalls_append, lint_bundlerCalls]
    simp [bundlerCalls]
  · have hlast : (initBuild env).trace
        = ([Event.log (env.colorPrimaryBold (utf16 "\uE0CF  Setting up build and bundling process...")),
            Event.log (utf16 "")] ++ (lint env).trace ++ [Event.log (utf16 "")] ++
          [Event.log (env.colorPrimary (utf16 "\uE0CF  Starting build and bundling process...")),
            Event.log (utf16 ""), Event.esbuildBuild (buildOptions [html, litCss])]) ++
          [Event.log (env.colorSuccess (utf16 "\uE0CF  Build process complete!"))] := by
      rw [htrace, hb]
      simp
    rw [hlast, getLast_append_singleton]
  · intro hstyle
    refine ⟨env.colorSuccess (utf16 "\uE0CF  Build process complete!"), ?_,
      List.IsInfix.trans hphrase hstyle⟩
    rw [htrace, hb]
    simp
  · simp [initBuild, hlint]

theorem initBuild_lint_true_witness :
    (lint (stubEnv [warningsOnly])).outcome = .returned true ∧
    (∃ config : BuildConfig,
      bundlerCalls (initBuild (stubEnv [warningsOnly])).trace = [config] ∧
      config.bundle = true ∧ config.minify = true) ∧
    (∃ line : JsString, Event.log line ∈ (initBuild (stubEnv [warningsOnly])).trace ∧
      utf16 "Build process complete!" <:+: line) ∧
    (initBuild (stubEnv [warningsOnly])).outcome = .returned () :=
  ⟨rfl,
    (initBuild_lint_true (stubEnv [warningsOnly]) ⟨utf16 "html"⟩ ⟨utf16 "lit-css"⟩
      rfl rfl rfl rfl).1,
    (initBuild_lint_true (stubEnv [warningsOnly]) ⟨utf16 "html"⟩ ⟨utf16 "lit-css"⟩
      rfl rfl rfl rfl).2.2.2.1 (List.infix_refl _),
    (initBuild_lint_true (stubEnv [warningsOnly]) ⟨utf16 "html"⟩ ⟨utf16 "lit-css"⟩
      rfl rfl rfl rfl).2.2.2.2⟩

/-! ## Dispatch -/

/-- C5: each of the five recognized selectors reads its own function from `operations`, and
the dispatch statement is one call of that function and nothing else: `--serve` runs
`serve`, `--build` runs `initBuild`, `--lint` runs `lint`, `--version` and `-v` run
`version`. -/
theorem dispatch_recognized (env : Env) :
    (operationsGet (utf16 "--serve") = .operation .serve ∧
      dispatch env (some (utf16 "--serve")) = serve env) ∧
    (operationsGet (utf16 "--build") = .operation .initBuild ∧
      dispatch env (some (utf16 "--build")) = initBuild env) ∧
    (operationsGet (utf16 "--lint") = .operation .lint ∧
      dispatch env (some (utf16 "--lint")) = (lint env).discard) ∧
    (operationsGet (utf16 "--version") = .operation .version ∧
      dispatch env (some (utf16 "--version")) = version env) ∧
    (operationsGet (utf16 "-v") = .operation .version ∧
      dispatch env (some (utf16 "-v")) = version env) := by
  have h1 : operationsGet (utf16 "--serve") = .operation .serve := by decide
  have h2 : operationsGet (utf16 "--build") = .operation .initBuild := by decide
  have h3 : operationsGet (utf16 "--lint") = .operation .lint := by decide
  have h4 : operationsGet (utf16 "--version") = .operation .version := by decide
  have h5 : operationsGet (utf16 "-v") = .operation .version := by decide
  refine ⟨⟨h1, ?_⟩, ⟨h2, ?_⟩, ⟨h3, ?_⟩, ⟨h4, ?_⟩, ⟨h5, ?_⟩⟩
  · simp only [dispatch, toPropertyKey, Option.getD_some, h1, runOperation]
  · simp only [dispatch, toPropertyKey, Option.getD_some, h2, runOperation]
  · simp only [dispatch, toPropertyKey, Option.getD_some, h3, runOperation]
  · simp only [dispatch, toPropertyKey, Option.getD_some, h4, runOperation]
  · simp only [dispatch, toPropertyKey, Option.getD_some, h5, runOperation]

/-- C6 (counterexample): the token `toString` is none of the five selectors, yet the read
`operations['toString']` yields the method inherited from `Object.prototype`, and the
dispatch statement calls it and returns normally instead of failing. -/
theorem dispatch_toString_returns :
    utf16 "toString" ∉ recognizedSelectors ∧
    operationsGet (utf16 "toString") = .builtin (utf16 "toString") ∧
    (dispatch (stubEnv []) (some (utf16 "toString"))).trace = [] ∧
    (dispatch (stubEnv []) (some (utf16 "toString"))).outcome = .returned () := by
  decide

theorem operationsOwn_none (key : JsString) (h : key ∉ recognizedSelectors) :
    operationsOwn key = none := by
  simp only [recognizedSelectors, List.mem_cons, List.mem_singleton, not_or, List.not_mem_nil,
    or_false] at h
  obtain ⟨h1, h2, h3, h4, h5⟩ := h
  simp [operationsOwn, h1, h2, h3, h4, h5]

/-- C6 (amended): for every selector token (the absent argument included) that is none of
the five selectors and does not name a method inherited from `Object.prototype`, the read
on `operations` yields no callable and the dispatch statement fails with a `TypeError`
before anything is invoked. -/
theorem dispatch_unrecognized (env : Env) (args : Option JsString)
    (hsel : toPropertyKey args ∉ recognizedSelectors)
    (hproto : toPropertyKey args ∉ objectPrototypeMethods) :
    (operationsGet (toPropertyKey args) = .undefined ∨
      operationsGet (toPropertyKey args) = .object) ∧
    (dispatch env args).trace = [] ∧
    (dispatch env args).outcome
      = .threw (newTypeError (utf16 "operations[args] is not a function")) := by
  have hget : operationsGet (toPropertyKey args) = objectPrototypeGet (toPropertyKey args) := by
    simp [operationsGet, operationsOwn_none _ hsel]
  by_cases hp : toPropertyKey args = utf16 "__proto__"
  · have hobj : operationsGet (toPropertyKey args) = .object := by
      rw [hget, objectPrototypeGet, if_neg hproto, if_pos hp]
    refine ⟨Or.inr hobj, ?_, ?_⟩ <;> simp only [dispatch, hobj]
  · have hundef : operationsGet (toPropertyKey args) = .undefined := by
      rw [hget]; simp [objectPrototypeGet, hproto, hp]
    refine ⟨Or.inl hundef, ?_, ?_⟩ <;> simp only [dispatch, hundef]

theorem dispatch_unrecognized_witness :
    (operationsGet (toPropertyKey none) = .undefined ∨
      operationsGet (toPropertyKey none) = .object) ∧
    (dispatch (stubEnv []) none).trace = [] ∧
    (dispatch (stubEnv []) none).outcome
      = .threw (newTypeError (utf16 "operations[args] is not a function")) :=
  dispatch_unrecognized (stubEnv []) none (by decide) (by decide)

/-! ## Serve -/

theorem jsIndexOfAux_at_start (pat s : JsString) (k : Nat) (h : pat.isPrefixOf s = true) :
    jsIndexOfAux pat s k = (k : Int) := by
  cases s with
  | nil => simp [jsIndexOfAux, h]
  | cons c cs => simp [jsIndexOfAux, h]

theorem jsIndexOf_append (cwd rest : JsString) : jsIndexOf (cwd ++ rest) cwd = 0 := by
  have h : cwd.isPrefixOf (cwd ++ rest) = true := by
    rw [List.isPrefixOf_iff_prefix]
    exact List.prefix_append cwd rest
  simpa [jsIndexOf] using jsIndexOfAux_at_start cwd (cwd ++ rest) 0 h

theorem changedFile_relative (cwd rel : JsString) (hrel : rel ≠ []) :
    changedFile cwd (cwd ++ utf16 "/" ++ rel) = rel := by
  have hsep : (utf16 "/").length = 1 := by decide
  have hpos : 0 < rel.length := List.length_pos.mpr hrel
  unfold changedFile jsSlice
  simp only [List.length_append, hsep, Nat.cast_add, Nat.cast_one]
  have hneg : ((cwd.length : Int) + 1 - ((cwd.length : Int) + 1 + (rel.length : Int)) < 0) := by
    omega
  rw [if_pos hneg]
  have hfirst : (max ((cwd.length : Int) + 1 + (rel.length : Int) +
      ((cwd.length : Int) + 1 - ((cwd.length : Int) + 1 + (rel.length : Int)))) 0).toNat
        = (cwd ++ utf16 "/").length := by
    rw [List.length_append, hsep]
    omega
  rw [hfirst, List.drop_left]

/-- C9: for every working directory `cwd` and every non-empty relative path `rel`, the
change listener of `serve`, on the path `cwd + '/' + rel`, computes `rel` as the changed
file and prints one line, made of `rel` after four blanks in the bold tertiary style and
of `has changed...`. -/
theorem changeListener_relative (env : Env) (rel : JsString) (hrel : rel ≠ []) :
    changedFile env.cwd (env.cwd ++ utf16 "/" ++ rel) = rel ∧
    changeListener env (env.cwd ++ utf16 "/" ++ rel)
      = [Event.log (env.colorTertiaryBold (utf16 "    " ++ rel) ++ utf16 " " ++
          env.colorTertiary (utf16 "has changed..."))] := by
  refine ⟨changedFile_relative env.cwd rel hrel, ?_⟩
  unfold changeListener
  rw [List.append_assoc, jsIndexOf_append, ← List.append_assoc,
    changedFile_relative env.cwd rel hrel]
  simp

theorem changeListener_relative_witness :
    utf16 "src/index.js" ≠ [] ∧
    changedFile (stubEnv []).cwd ((stubEnv []).cwd ++ utf16 "/" ++ utf16 "src/index.js")
      = utf16 "src/index.js" ∧
    changeListener (stubEnv []) ((stubEnv []).cwd ++ utf16 "/" ++ utf16 "src/index.js")
      = [Event.log ((stubEnv []).colorTertiaryBold (utf16 "    " ++ utf16 "src/index.js") ++
          utf16 " " ++ (stubEnv []).colorTertiary (utf16 "has changed..."))] :=
  ⟨by decide, changeListener_relative (stubEnv []) (utf16 "src/index.js") (by decide)⟩

/-- C10: if the dev server's start call throws, `server` is never assigned: `serve` prints
the error, performs neither the listener removal nor the stop, and ends with the
`TypeError` raised by reading `fileWatcher` from the unassigned binding. -/
theorem serve_start_throws (env : Env) (plugin : Plugin) (error : JsError)
    (hplugin : env.wdsLitCss serveStyleOptions = .ok plugin)
    (hstart : env.startDevServer (serveOptions env plugin) = .error error) :
    (serve env).trace
      = [Event.startDevServer (serveOptions env plugin),
          Event.log (env.colorError error.toJsString)] ∧
    (∃ e : JsError, (serve env).outcome = .threw e ∧ e.name = utf16 "TypeError") ∧
    (serve env).outcome ≠ .returned () := by
  have hserve : serve env
      = (serveCatch env none error).after [Event.startDevServer (serveOptions env plugin)] := by
    simp [serve, hplugin, hstart]
  rw [hserve]
  refine ⟨rfl, ⟨_, rfl, rfl⟩, ?_⟩
  simp [Run.after, serveCatch]

theorem serve_start_throws_witness :
    (serve failedStartEnv).trace
      = [Event.startDevServer (serveOptions failedStartEnv ⟨utf16 "wds-lit-css"⟩),
          Event.log (failedStartEnv.colorError
            (newError (utf16 "listen EADDRINUSE: address already in use")).toJsString)] ∧
    (∃ e : JsError, (serve failedStartEnv).outcome = .threw e ∧ e.name = utf16 "TypeError") ∧
    (serve failedStartEnv).outcome ≠ .returned () :=
  serve_start_throws failedStartEnv ⟨utf16 "wds-lit-css"⟩
    (newError (utf16 "listen EADDRINUSE: address already in use")) rfl rfl
end BrickWc
